import Mathlib

/-!
Verification of the collaborative-editor event-bus core
(`src/services/events/EventBus.ts`, `src/services/events/middleware.ts`,
`src/types/events.ts`) via a shallow embedding in Lean.

Modelling conventions:
* JavaScript runtime values that the code inspects dynamically (`typeof`,
  truthiness) are embedded as the inductive `JSVal`; numbers are `Int`
  (timestamps come from `Date.now()`); `Date` objects are `JSVal.date`.
* `Map` is an insertion-ordered association list, `Set` an insertion-ordered
  duplicate-free list; deletion is by (structural) identity, matching the
  reference-identity semantics of JS `Set.delete` because every function
  object created by the bus carries a fresh nonce.
* Handler functions are identified by a natural-number id; their runtime
  behaviour during one emission is an environment `Nat → HOutcome`
  distinguishing normal completion, a synchronous throw, and a returned
  rejecting promise.  Wrappers created by `subscribe` (`once`, `timeout`)
  are embedded structurally as `HEntry` values.
* `emit` is modelled as a state transformer returning, besides the new bus
  state, the emission outcome, the ordered log of user-handler ids that were
  actually invoked, and the number of middleware functions entered.  Effects
  that JavaScript performs in microtasks after promise settlement (the
  self-removal of a `once` wrapper) are reflected in the post-state, which
  models the state after all microtasks of the emission have settled.
* Real time (`setTimeout` races in the `timeout` wrapper) is outside the
  model: a `timeout` wrapper is given the semantics of the race in which the
  inner handler settles first.  No theorem below depends on that branch
  firing the timer.
-/

/-- Dynamically typed JavaScript values, as far as the event-bus code
inspects them (`typeof` checks and truthiness in `validateEvent`). -/
inductive JSVal where
  | undef : JSVal
  | nullv : JSVal
  | num (n : Int) : JSVal
  | str (s : String) : JSVal
  | date (ms : Int) : JSVal
  | boolean (b : Bool) : JSVal
deriving DecidableEq, Repr

/-- JavaScript truthiness for the embedded values (`NaN` is not
representable: numeric timestamps are modelled as integers). -/
def jsTruthy : JSVal → Bool
  | .undef => false
  | .nullv => false
  | .num n => n != 0
  | .str s => s != ""
  | .date _ => true
  | .boolean b => b

/-- The JavaScript `typeof` operator on the embedded values. -/
def jsTypeof : JSVal → String
  | .undef => "undefined"
  | .nullv => "object"
  | .num _ => "number"
  | .str _ => "string"
  | .date _ => "object"
  | .boolean _ => "boolean"

/-- An event (`IEvent`): `type` is the dispatch key (a string in every call
site), while `timestamp` and `source` are kept dynamically typed because
`validateEvent` inspects them with truthiness and `typeof`. -/
structure Event where
  type : String
  timestamp : JSVal
  source : JSVal
deriving DecidableEq, Repr

/-- `EventValidationResult` from `types/events.ts`. -/
structure EventValidationResult where
  isValid : Bool
  errors : Option (List String)
deriving DecidableEq, Repr

/-- `validateEvent` from `middleware.ts` (lines 104-127), translated check
by check, in source order, including the truthiness tests. -/
def validateEvent (event : Event) : EventValidationResult :=
  let errors : List String := []
  let errors := if !(event.type != "") then errors ++ ["Event type is required"] else errors
  let errors := if !(jsTruthy event.timestamp) then errors ++ ["Event timestamp is required"] else errors
  let errors := if !(jsTruthy event.source) then errors ++ ["Event source is required"] else errors
  let errors := if jsTypeof event.timestamp != "number" then errors ++ ["Event timestamp must be a number"] else errors
  let errors := if jsTypeof event.source != "string" then errors ++ ["Event source must be a string"] else errors
  { isValid := errors.isEmpty
    errors := if errors.isEmpty then none else some errors }

/-- Errors raised by the bus (`EventBusError`): the `code` string and the
code of the wrapped `originalError` when there is one ("Error" stands for a
non-bus JavaScript error). -/
structure BusError where
  code : String
  cause : Option String
deriving DecidableEq, Repr

/-- The `HANDLER_ERROR` created in the fan-out map of `emit` around a
synchronously thrown handler exception. -/
def handlerError : BusError := { code := "HANDLER_ERROR", cause := some "Error" }

/-- The `EMIT_ERROR` created in the outer catch of `emit`, wrapping the
stage error that aborted the emission. -/
def emitError (cause : String) : BusError := { code := "EMIT_ERROR", cause := some cause }

/-! ### Insertion-ordered maps and sets (JS `Map` / `Set`) -/

/-- JS `Map.get`. -/
def mapGet {α : Type} : List (String × α) → String → Option α
  | [], _ => none
  | (k, v) :: rest, key => if k = key then some v else mapGet rest key

/-- JS `Map.set`: updates in place preserving insertion order, appends when
the key is new. -/
def mapSet {α : Type} : List (String × α) → String → α → List (String × α)
  | [], key, v => [(key, v)]
  | (k, w) :: rest, key, v => if k = key then (key, v) :: rest else (k, w) :: mapSet rest key v

/-- JS `Map.delete`. -/
def mapDelete {α : Type} : List (String × α) → String → List (String × α)
  | [], _ => []
  | (k, w) :: rest, key => if k = key then rest else (k, w) :: mapDelete rest key

/-- JS `Set.add`: appends unless already present. -/
def setAdd {α : Type} [DecidableEq α] (l : List α) (x : α) : List α :=
  if x ∈ l then l else l ++ [x]

/-- JS `Set.delete`: removes the element (by identity). -/
def setDelete {α : Type} [DecidableEq α] (l : List α) (x : α) : List α :=
  l.erase x

/-! ### Bus state -/

/-- A registered handler entry: the function object stored in the
per-event-type `Set`.  `base` is a caller-supplied handler (identified by
id); `onceW` is the wrapper closure built for `options.once` (it captures
the subscription's event type so it can unsubscribe itself); `timeoutW` is
the wrapper closure built for `options.timeout`.  Each wrapper carries the
fresh nonce allocated at its creation, modelling distinct closure
identity. -/
inductive HEntry where
  | base (hid : Nat) : HEntry
  | onceW (inner : HEntry) (etype : String) (nonce : Nat) : HEntry
  | timeoutW (inner : HEntry) (t : Nat) (nonce : Nat) : HEntry
deriving DecidableEq, Repr

/-- `EventSubscription` (minus the `unsubscribe` closure, which is
`fun _ => unsubscribe { eventType, handler }` and is applied through the
`unsubscribe` operation below). -/
structure Subscription where
  eventType : String
  handler : HEntry
deriving DecidableEq, Repr

/-- `EventBusStats` as plain values (the aliasing behaviour of the `stats`
object and `getStats` is modelled separately below for the snapshot
claim). -/
structure Stats where
  totalEventsEmitted : Nat
  activeSubscriptions : Nat
  middlewareCount : Nat
  eventTypes : List String
  errors : List BusError
deriving DecidableEq, Repr

/-- `Required<EventBusConfig>` after the constructor applied its
defaults. -/
structure Config where
  enableLogging : Bool
  enableValidation : Bool
  maxListeners : Nat
deriving DecidableEq, Repr

/-- Denotation of one installed middleware, as far as the bus observes it:
it calls `next` exactly once and succeeds, never calls `next` (stops the
chain without error), or fails with an error of the given code.  The
middlewares exercised by the claims install no middleware; the rate-limit
middleware is modelled separately by `rateLimitStep` because its state
lives in its own closure, not in the bus. -/
inductive MWBeh where
  | passThrough : MWBeh
  | dropEvent : MWBeh
  | failWith (code : String) : MWBeh
deriving DecidableEq, Repr

/-- `EventSubscriptionOptions` (the `filter` option is never read by the
implementation). -/
structure SubOptions where
  once : Bool := false
  timeout : Option Nat := none
deriving DecidableEq, Repr

/-- The private state of an `EventBus` instance.  `validators` stores the
custom validator functions; `nextNonce` is the supply of fresh closure
identities for wrapper creation. -/
structure BusState where
  handlers : List (String × List HEntry)
  validators : List (String × (Event → EventValidationResult))
  middleware : List MWBeh
  stats : Stats
  config : Config
  nextNonce : Nat

/-- `EventBusConfig` before defaulting. -/
structure EventBusConfig where
  enableLogging : Option Bool := none
  enableValidation : Option Bool := none
  defaultMiddleware : List MWBeh := []
  maxListeners : Option Nat := none

/-- `use`: appends to the middleware list and bumps `middlewareCount`. -/
def use (s : BusState) (m : MWBeh) : BusState :=
  { s with middleware := s.middleware ++ [m]
           stats := { s.stats with middlewareCount := s.stats.middlewareCount + 1 } }

/-- The private constructor `new EventBus(config)`: empty registries, zero
stats, config defaulting (`?? true`, `?? true`, `?? []`, `?? 10`), then
`use` folded over the default middleware. -/
def mkBus (config : EventBusConfig) : BusState :=
  let s : BusState :=
    { handlers := []
      validators := []
      middleware := []
      stats := { totalEventsEmitted := 0, activeSubscriptions := 0, middlewareCount := 0
                 eventTypes := [], errors := [] }
      config := { enableLogging := config.enableLogging.getD true
                  enableValidation := config.enableValidation.getD true
                  maxListeners := config.maxListeners.getD 10 }
      nextNonce := 0 }
  config.defaultMiddleware.foldl use s

/-- `addValidator`: last write wins per event type. -/
def addValidator (s : BusState) (eventType : String) (f : Event → EventValidationResult) : BusState :=
  { s with validators := mapSet s.validators eventType f }

/-- `unsubscribe` (EventBus.ts lines 219-233): when the event type has an
entry, delete the subscription's handler from the set, drop the entry if
the set became empty, and set `activeSubscriptions` to
`Math.max(0, activeSubscriptions - 1)` (truncated subtraction on `Nat`).
When there is no entry, nothing happens. -/
def unsubscribe (s : BusState) (sub : Subscription) : BusState :=
  match mapGet s.handlers sub.eventType with
  | none => s
  | some set =>
    let set' := setDelete set sub.handler
    let hmap :=
      if set'.isEmpty then mapDelete s.handlers sub.eventType
      else mapSet s.handlers sub.eventType set'
    { s with handlers := hmap
             stats := { s.stats with activeSubscriptions := s.stats.activeSubscriptions - 1 } }

/-- `subscribe` (EventBus.ts lines 147-214), translated step by step:
max-listener check on the current set, insertion of the raw handler,
stats update, then the `once` block and then the `timeout` block, each of
which deletes the *original* `handler` reference from the set, adds its
own wrapper, and redirects the returned subscription to its wrapper.
`if (options.timeout)` is a truthiness test, so a zero timeout is
skipped. -/
def subscribe (s : BusState) (eventType : String) (hid : Nat) (options : SubOptions) :
    Except BusError (Subscription × BusState) :=
  let handlers := (mapGet s.handlers eventType).getD []
  if s.config.maxListeners ≤ handlers.length then
    .error { code := "MAX_LISTENERS_EXCEEDED", cause := none }
  else
    let hmap := if (mapGet s.handlers eventType).isNone then mapSet s.handlers eventType [] else s.handlers
    let hmap := mapSet hmap eventType (setAdd ((mapGet hmap eventType).getD []) (.base hid))
    let stats :=
      { s.stats with
          activeSubscriptions := s.stats.activeSubscriptions + 1
          eventTypes := if eventType ∈ s.stats.eventTypes then s.stats.eventTypes
                        else s.stats.eventTypes ++ [eventType] }
    let sub : Subscription := { eventType := eventType, handler := .base hid }
    let nonce := s.nextNonce
    let (hmap, sub, nonce) :=
      if options.once then
        let wrapped : HEntry := .onceW (.base hid) eventType nonce
        let set0 := (mapGet hmap eventType).getD []
        (mapSet hmap eventType (setAdd (setDelete set0 (.base hid)) wrapped),
         { sub with handler := wrapped }, nonce + 1)
      else (hmap, sub, nonce)
    let (hmap, sub, nonce) :=
      match options.timeout with
      | some t =>
        if t ≠ 0 then
          let wrapped : HEntry := .timeoutW (.base hid) t nonce
          let set0 := (mapGet hmap eventType).getD []
          (mapSet hmap eventType (setAdd (setDelete set0 (.base hid)) wrapped),
           { sub with handler := wrapped }, nonce + 1)
        else (hmap, sub, nonce)
      | none => (hmap, sub, nonce)
    .ok (sub, { s with handlers := hmap, stats := stats, nextNonce := nonce })

/-! ### Emission -/

/-- Behaviour of one caller-supplied handler during one emission: it
returns normally, throws synchronously when called, or returns a promise
that rejects. -/
inductive HOutcome where
  | ok : HOutcome
  | throwSync : HOutcome
  | rejectAsync : HOutcome
deriving DecidableEq, Repr

/-- Result of calling one registered entry inside the fan-out map:
`resolved us` means its promise resolves, after running the `unsubscribe`
calls `us` (the self-removal of `once` wrappers); `rejected` means its
promise rejects; `syncThrow` means the call itself threw (only possible
for a raw handler, since wrappers are `async` functions). -/
inductive InvRes where
  | resolved (unsubs : List Subscription) : InvRes
  | rejected : InvRes
  | syncThrow : InvRes
deriving DecidableEq, Repr

/-- Calling one registered entry: returns the ids of the caller-supplied
handlers that were actually invoked, and how the call settles.  A `once`
wrapper awaits its inner handler and then unsubscribes itself (only on
success: a rejection skips the removal).  A `timeout` wrapper races its
inner handler against a timer; the model gives it the branch in which the
inner handler settles first (no theorem depends on the timer firing). -/
def invokeEntry (env : Nat → HOutcome) : HEntry → List Nat × InvRes
  | .base hid =>
    ([hid], match env hid with
            | .ok => .resolved []
            | .throwSync => .syncThrow
            | .rejectAsync => .rejected)
  | .onceW inner etype nonce =>
    let (log, r) := invokeEntry env inner
    (log, match r with
          | .resolved us => .resolved (us ++ [{ eventType := etype, handler := .onceW inner etype nonce }])
          | _ => .rejected)
  | .timeoutW inner _ _ =>
    let (log, r) := invokeEntry env inner
    (log, match r with
          | .resolved us => .resolved us
          | _ => .rejected)

/-- Aggregate outcome of the fan-out map plus `Promise.all`. -/
inductive FanRes where
  | allResolved : FanRes
  | someRejected : FanRes
  | syncAborted : FanRes
deriving DecidableEq, Repr

/-- The fan-out map of `emit` (lines 104-119): entries are called in
insertion order; a synchronous throw pushes a `HANDLER_ERROR` and aborts
the map, so later entries are never called; rejections are collected by
`Promise.all`.  Returns the aggregate result, the invocation log, the
pending self-unsubscribes of resolved `once` wrappers, and the errors
pushed during the map. -/
def fanOut (env : Nat → HOutcome) : List HEntry → FanRes × List Nat × List Subscription × List BusError
  | [] => (.allResolved, [], [], [])
  | e :: rest =>
    match invokeEntry env e with
    | (log, .syncThrow) => (.syncAborted, log, [], [handlerError])
    | (log, .rejected) =>
      let (r, log', us, errs) := fanOut env rest
      (match r with
       | .syncAborted => .syncAborted
       | _ => .someRejected, log ++ log', us, errs)
    | (log, .resolved us) =>
      let (r, log', us', errs) := fanOut env rest
      (r, log ++ log', us ++ us', errs)

/-- `runMiddlewareChain`, observed through the `MWBeh` denotations: walks
the list in installation order; also counts how many middleare functions
were entered. -/
def runChain : List MWBeh → Except String Unit × Nat
  | [] => (.ok (), 0)
  | .passThrough :: rest =>
    let (r, n) := runChain rest
    (r, n + 1)
  | .dropEvent :: _ => (.ok (), 1)
  | .failWith code :: _ => (.error code, 1)

/-- Append one error to `stats.errors`. -/
def pushErr (s : BusState) (e : BusError) : BusState :=
  { s with stats := { s.stats with errors := s.stats.errors ++ [e] } }

/-- Apply the pending self-unsubscribes of resolved `once` wrappers. -/
def applyUnsubs (s : BusState) (us : List Subscription) : BusState :=
  us.foldl unsubscribe s

/-- Everything `emit` produces: the settlement of its promise, the bus
state after the emission (with all microtasks settled), the ordered log of
caller-supplied handler ids invoked, and the number of middleware
functions entered. -/
structure EmitOut where
  result : Except BusError Unit
  state : BusState
  log : List Nat
  mwRan : Nat

/-- The validation stage of `emit` (lines 68-92): under
`config.enableValidation`, the built-in `validateEvent` check and then the
custom validator registered for `event.type` - both inside the same `if`.
Returns the `VALIDATION_ERROR` thrown, if any. -/
def validationStage (s : BusState) (event : Event) : Option BusError :=
  if s.config.enableValidation then
    let builtIn := validateEvent event
    if !builtIn.isValid then some { code := "VALIDATION_ERROR", cause := none }
    else
      match mapGet s.validators event.type with
      | some f =>
        if !(f event).isValid then some { code := "VALIDATION_ERROR", cause := none } else none
      | none => none
  else none

/-- `emit` (EventBus.ts lines 66-141), translated stage by stage:
1. the validation stage (`validationStage`);
2. the middleware chain;
3. early return (with **no** stats update) when the handler map has no
   entry for `event.type`;
4. the fan-out map and `Promise.all`;
5. on success, `totalEventsEmitted` increment and `eventTypes` recording.
The outer catch wraps any stage error as an `EMIT_ERROR`, pushes it onto
`stats.errors`, and rethrows. -/
def emit (s : BusState) (env : Nat → HOutcome) (event : Event) : EmitOut :=
  match validationStage s event with
  | some e =>
    { result := .error (emitError e.code)
      state := pushErr s (emitError e.code)
      log := []
      mwRan := 0 }
  | none =>
    let (mwRes, mwN) := runChain s.middleware
    match mwRes with
    | .error code =>
      { result := .error (emitError code), state := pushErr s (emitError code)
        log := [], mwRan := mwN }
    | .ok _ =>
      match mapGet s.handlers event.type with
      | none => { result := .ok (), state := s, log := [], mwRan := mwN }
      | some entries =>
        match fanOut env entries with
        | (.allResolved, log, us, _) =>
          let s1 := applyUnsubs s us
          let s2 :=
            { s1 with stats :=
                { s1.stats with
                    totalEventsEmitted := s1.stats.totalEventsEmitted + 1
                    eventTypes := if event.type ∈ s1.stats.eventTypes then s1.stats.eventTypes
                                  else s1.stats.eventTypes ++ [event.type] } }
          { result := .ok (), state := s2, log := log, mwRan := mwN }
        | (.someRejected, log, us, errs) =>
          let s1 := applyUnsubs (errs.foldl pushErr s) us
          { result := .error (emitError "Error"), state := pushErr s1 (emitError "Error")
            log := log, mwRan := mwN }
        | (.syncAborted, log, us, errs) =>
          let s1 := applyUnsubs (errs.foldl pushErr s) us
          { result := .error (emitError "HANDLER_ERROR"), state := pushErr s1 (emitError "HANDLER_ERROR")
            log := log, mwRan := mwN }

/-! ### The stats object and `getStats` with reference semantics

`getStats()` is `return { ...this.stats }` (EventBus.ts lines 291-293): an
object spread copies the own fields of the stats object.  The numeric
counters are copied by value, but `eventTypes` and `errors` are array
*references*, so the copy shares the two arrays with the live stats
object.  To state this, the stats object is modelled here with explicit
array references into a heap of JS arrays. -/

/-- The `stats` object as stored on the bus: counters by value, the two
arrays by reference (heap addresses). -/
structure StatsObj where
  totalEventsEmitted : Nat
  activeSubscriptions : Nat
  middlewareCount : Nat
  eventTypesRef : Nat
  errorsRef : Nat
deriving DecidableEq, Repr

/-- The heap of JS arrays the stats references point into. -/
structure StatsHeap where
  strArrays : Nat → List String
  errArrays : Nat → List BusError

/-- `getStats`: the object spread `{ ...this.stats }` copies every own
field of the stats object - counters by value and the two array fields as
references. -/
def getStats (stats : StatsObj) : StatsObj :=
  { totalEventsEmitted := stats.totalEventsEmitted
    activeSubscriptions := stats.activeSubscriptions
    middlewareCount := stats.middlewareCount
    eventTypesRef := stats.eventTypesRef
    errorsRef := stats.errorsRef }

/-- `arr.push(v)` on the string array at heap address `r`. -/
def pushStrAt (h : StatsHeap) (r : Nat) (v : String) : StatsHeap :=
  { h with strArrays := fun i => if i = r then h.strArrays i ++ [v] else h.strArrays i }

/-- `arr.length = 0` (clearing) on the string array at heap address `r`. -/
def clearStrAt (h : StatsHeap) (r : Nat) : StatsHeap :=
  { h with strArrays := fun i => if i = r then [] else h.strArrays i }

/-- The `eventTypes` array the bus itself sees through its stats object. -/
def busEventTypes (h : StatsHeap) (stats : StatsObj) : List String :=
  h.strArrays stats.eventTypesRef

/-! ### The rate-limiting middleware

`createRateLimitMiddleware` (middleware.ts lines 76-99) keeps a private
array of emission timestamps.  One call of the returned middleware is the
step below: evict from the front while `now - eventTimestamps[0] >
windowSize`, then fail when `eventTimestamps.length >= maxEventsPerSecond`,
otherwise record `now` and call `next`.  The mutated timestamp array
persists in the closure in both branches. -/

/-- `windowSize = 1000` (ms). -/
def windowSize : Int := 1000

/-- The `RATE_LIMIT_EXCEEDED` error thrown by the rate-limit middleware. -/
def rateLimitError : BusError := { code := "RATE_LIMIT_EXCEEDED", cause := none }

/-- The eviction `while` loop: shift while the head is strictly older than
the window. -/
def evictOld (now : Int) : List Int → List Int
  | [] => []
  | t :: rest => if windowSize < now - t then evictOld now rest else t :: rest

/-- One invocation of the rate-limit middleware at time `now`: the
settlement of the call (`error` is the `RATE_LIMIT_EXCEEDED` rejection,
`ok` means `next` was called) together with the timestamp array left in
the closure. -/
def rateLimitStep (maxEventsPerSecond : Nat) (now : Int) (ts : List Int) :
    Except BusError Unit × List Int :=
  let ts' := evictOld now ts
  if maxEventsPerSecond ≤ ts'.length then
    (.error rateLimitError, ts')
  else
    (.ok (), ts' ++ [now])

/-- The timestamp array after `k` consecutive invocations at the same
instant `now`, starting from the fresh (empty) closure state. -/
def rlIter (maxEventsPerSecond : Nat) (now : Int) : Nat → List Int
  | 0 => []
  | k + 1 => (rateLimitStep maxEventsPerSecond now (rlIter maxEventsPerSecond now k)).2

/-! ### Concrete scenarios used by the claims -/

/-- A structurally valid event (non-empty type, nonzero numeric timestamp,
non-empty string source). -/
def validNumEvent : Event := { type := "t", timestamp := .num 5, source := .str "s" }

/-- The Scenario A event: `{type: "doc.saved", timestamp: now, source:
"test"}` with `now` a `Date` value, as the `IEvent` data model declares the
`timestamp` field. -/
def scenarioAEvent (t : Int) : Event :=
  { type := "doc.saved", timestamp := .date t, source := .str "test" }

/-- A default-configuration bus with one plain handler (id 0) subscribed to
`"doc.saved"`. -/
def scenarioABus : BusState :=
  match subscribe (mkBus {}) "doc.saved" 0 {} with
  | .ok (_, s) => s
  | .error _ => mkBus {}

/-- A default-configuration bus with one handler (id 0) subscribed to
`"t"` with `{once: true}`. -/
def onceBus : BusState :=
  match subscribe (mkBus {}) "t" 0 { once := true } with
  | .ok (_, s) => s
  | .error _ => mkBus {}

/-- A default-configuration bus with plain handlers 0 and 1 subscribed to
`"t"`, in that order. -/
def twoHandlerBus : BusState :=
  match subscribe (mkBus {}) "t" 0 {} with
  | .ok (_, s) =>
    match subscribe s "t" 1 {} with
    | .ok (_, s') => s'
    | .error _ => s
  | .error _ => mkBus {}

/-- The subscription value for the raw handler 0 on `"t"`. -/
def subBase0 : Subscription := { eventType := "t", handler := .base 0 }

/-- Environment in which every handler completes normally. -/
def allOk : Nat → HOutcome := fun _ => .ok

/-- Environment in which every handler returns a rejecting promise. -/
def allReject : Nat → HOutcome := fun _ => .rejectAsync

/-- Environment in which handler 0 throws synchronously and every other
handler completes normally. -/
def syncThrowEnv : Nat → HOutcome := fun i => if i = 0 then .throwSync else .ok

/-- A custom validator that rejects every event. -/
def failingValidator : Event → EventValidationResult :=
  fun _ => { isValid := false, errors := some ["Custom validation failed"] }

/-- A bus constructed with `enableValidation: false`, one plain handler
(id 0) on `"t"`, and the failing custom validator registered for `"t"`. -/
def noValidationBus : BusState :=
  match subscribe (mkBus { enableValidation := some false }) "t" 0 {} with
  | .ok (_, s) => addValidator s "t" failingValidator
  | .error _ => mkBus {}

/-! ### Claim theorems -/

/-- C10: built-in structural validation tests `timestamp` by truthiness,
so an event whose timestamp is the number 0 is rejected with the error
"Event timestamp is required"; and every event with a non-empty type, a
nonzero numeric timestamp, and a non-empty string source validates as
`isValid: true`. -/
theorem validateEvent_timestamp_truthiness :
    (∀ ev : Event, ev.timestamp = .num 0 →
        (validateEvent ev).isValid = false ∧
        "Event timestamp is required" ∈ (validateEvent ev).errors.getD []) ∧
    (∀ (ev : Event) (n : Int) (src : String),
        ev.type ≠ "" → ev.timestamp = .num n → n ≠ 0 →
        ev.source = .str src → src ≠ "" →
        validateEvent ev = { isValid := true, errors := none }) := by
  constructor
  · rintro ⟨ty, ts, src⟩ h
    cases h
    simp only [validateEvent, jsTruthy, jsTypeof]
    constructor
    · split_ifs <;> simp_all
    · split_ifs <;> simp_all
  · rintro ⟨ty, ts, src⟩ n s h1 h2 h3 h4 h5
    cases h2
    cases h4
    simp [validateEvent, jsTruthy, jsTypeof, h1, h3, h5]

/-- Witness for C10 at the epoch-timestamp event and at a valid event. -/
theorem validateEvent_timestamp_truthiness_witness :
    ((validateEvent { type := "t", timestamp := .num 0, source := .str "s" }).isValid = false ∧
      "Event timestamp is required" ∈
        (validateEvent { type := "t", timestamp := .num 0, source := .str "s" }).errors.getD []) ∧
    validateEvent { type := "t", timestamp := .num 5, source := .str "s" } =
      { isValid := true, errors := none } :=
  ⟨validateEvent_timestamp_truthiness.1 { type := "t", timestamp := .num 0, source := .str "s" } rfl,
   validateEvent_timestamp_truthiness.2 { type := "t", timestamp := .num 5, source := .str "s" }
     5 "s" (by decide) rfl (by decide) rfl (by decide)⟩

/-- C1 (code bug): with the default configuration and handler H subscribed
to "doc.saved", emitting the Scenario A event with a `Date` timestamp (as
the `IEvent` data model declares) does **not** succeed: `validateEvent`
pushes "Event timestamp must be a number", so `emit` rejects with an
`EMIT_ERROR` wrapping the `VALIDATION_ERROR`, H is never invoked, and
`totalEventsEmitted` stays 0.  The repository's own test suite
(`middleware.test.ts`, `EventBus.test.ts`) expects events with `Date`
timestamps to pass validation, so the claim matches the intent and the
`typeof ... number` check in `validateEvent` is the slip. -/
theorem scenarioA_date_timestamp_rejected (t : Int) (env : Nat → HOutcome) :
    validateEvent (scenarioAEvent t) =
      { isValid := false, errors := some ["Event timestamp must be a number"] } ∧
    mapGet scenarioABus.handlers "doc.saved" = some [.base 0] ∧
    (emit scenarioABus env (scenarioAEvent t)).result = .error (emitError "VALIDATION_ERROR") ∧
    (emit scenarioABus env (scenarioAEvent t)).log = [] ∧
    (emit scenarioABus env (scenarioAEvent t)).state.stats.totalEventsEmitted = 0 ∧
    (emit scenarioABus env (scenarioAEvent t)).state.stats.errors =
      [emitError "VALIDATION_ERROR"] :=
  ⟨rfl, rfl, rfl, rfl, rfl, rfl⟩

/-- C3 (code bug): subscribing with `{once: true, timeout: t}` does not
layer the two wrappers: the `timeout` block wraps the *original* handler
reference and deletes that original from the set (a no-op, the `once`
block already replaced it), so the set ends with **two** entries - the
`once` wrapper and a `timeout` wrapper around the raw handler - while
`activeSubscriptions` was incremented once, and the returned
subscription's `unsubscribe` removes only the `timeout` wrapper, leaving
the `once` wrapper (derived from the caller's handler) registered. -/
theorem subscribe_once_timeout_two_entries :
    ∃ sub s, subscribe (mkBus {}) "t" 0 { once := true, timeout := some 5 } = .ok (sub, s) ∧
      mapGet s.handlers "t" = some [.onceW (.base 0) "t" 0, .timeoutW (.base 0) 5 1] ∧
      s.stats.activeSubscriptions = 1 ∧
      sub.handler = .timeoutW (.base 0) 5 1 ∧
      mapGet (unsubscribe s sub).handlers "t" = some [.onceW (.base 0) "t" 0] ∧
      (unsubscribe s sub).stats.activeSubscriptions = 0 :=
  ⟨_, _, rfl, rfl, rfl, rfl, rfl, rfl⟩

/-- C2 counterexample: a `once` handler whose invocation fails (rejecting
promise) is **not** unsubscribed - the wrapper stays in the registry, and a
second emit of the same event type re-invokes it, so over its lifetime it
is invoked twice. -/
theorem once_failing_handler_counterexample :
    (emit onceBus allReject validNumEvent).log = [0] ∧
    mapGet (emit onceBus allReject validNumEvent).state.handlers "t" =
      some [.onceW (.base 0) "t" 0] ∧
    (emit onceBus allReject validNumEvent).state.stats.activeSubscriptions = 1 ∧
    (emit (emit onceBus allReject validNumEvent).state allReject validNumEvent).log = [0] :=
  ⟨rfl, rfl, rfl, rfl⟩

/-- C4 counterexample: with handlers 0 and 1 subscribed in that order and
handler 0 throwing synchronously, `emit` fails but handler 1 is **never
invoked** - the fan-out map short-circuits on a synchronous throw. -/
theorem handler_sync_throw_counterexample :
    (emit twoHandlerBus syncThrowEnv validNumEvent).log = [0] ∧
    (emit twoHandlerBus syncThrowEnv validNumEvent).result =
      .error (emitError "HANDLER_ERROR") ∧
    (emit twoHandlerBus syncThrowEnv validNumEvent).state.stats.errors =
      [handlerError, emitError "HANDLER_ERROR"] :=
  ⟨rfl, rfl, rfl⟩

/-- C5 counterexample: with handlers 0 and 1 subscribed to "t"
(`activeSubscriptions = 2`), unsubscribing handler 0 leaves
`activeSubscriptions = 1`; the **second** call of the same unsubscribe is
not a no-op: the registry is unchanged but `activeSubscriptions` drops
again to 0, because the decrement is guarded only by the existence of the
event-type entry. -/
theorem double_unsubscribe_counterexample :
    twoHandlerBus.stats.activeSubscriptions = 2 ∧
    (unsubscribe twoHandlerBus subBase0).stats.activeSubscriptions = 1 ∧
    mapGet (unsubscribe twoHandlerBus subBase0).handlers "t" = some [.base 1] ∧
    (unsubscribe (unsubscribe twoHandlerBus subBase0) subBase0).stats.activeSubscriptions = 0 ∧
    mapGet (unsubscribe (unsubscribe twoHandlerBus subBase0) subBase0).handlers "t" =
      some [.base 1] :=
  ⟨rfl, rfl, rfl, rfl, rfl⟩

/-- C6 counterexample: emitting a valid event on a fresh default bus (no
handlers registered) returns success, but `totalEventsEmitted` stays 0 and
`eventTypes` stays empty - the zero-handler early return skips the stats
update, contradicting the claim that every successful emit increments the
counter. -/
theorem zero_handler_emit_counterexample :
    (emit (mkBus {}) allOk validNumEvent).result = .ok () ∧
    (emit (mkBus {}) allOk validNumEvent).state.stats.totalEventsEmitted = 0 ∧
    (emit (mkBus {}) allOk validNumEvent).state.stats.eventTypes = [] :=
  ⟨rfl, rfl, rfl⟩

/-- C7 counterexample: on a bus constructed with `enableValidation: false`
and a failing custom validator registered for "t", emitting a "t" event
**succeeds** and the handler runs - the custom-validator check sits inside
the `enableValidation` guard, so it is not unconditional. -/
theorem custom_validator_disabled_counterexample :
    (emit noValidationBus allOk validNumEvent).result = .ok () ∧
    (emit noValidationBus allOk validNumEvent).log = [0] ∧
    (emit noValidationBus allOk validNumEvent).state.stats.totalEventsEmitted = 1 :=
  ⟨rfl, rfl, rfl⟩

/-- C8 counterexample: `getStats` returns `{ ...stats }`, a shallow copy
sharing the `eventTypes` array reference; pushing "x" through the
snapshot's array reference changes the `eventTypes` the bus itself reads,
so mutating the snapshot does change the internal statistics. -/
theorem getStats_shallow_counterexample :
    busEventTypes { strArrays := fun _ => [], errArrays := fun _ => [] }
        { totalEventsEmitted := 0, activeSubscriptions := 0, middlewareCount := 0
          eventTypesRef := 0, errorsRef := 1 } = [] ∧
    busEventTypes
        (pushStrAt { strArrays := fun _ => [], errArrays := fun _ => [] }
          (getStats { totalEventsEmitted := 0, activeSubscriptions := 0, middlewareCount := 0
                      eventTypesRef := 0, errorsRef := 1 }).eventTypesRef "x")
        { totalEventsEmitted := 0, activeSubscriptions := 0, middlewareCount := 0
          eventTypesRef := 0, errorsRef := 1 } = ["x"] := by
  constructor
  · rfl
  · simp [busEventTypes, pushStrAt, getStats]

/-- C9 counterexample: a recorded timestamp exactly `windowSize` (1000 ms)
old is **not** evicted (`now - ts[0] > windowSize` is strict), so with
limit 1 and one entry exactly 1000 ms old the call is rejected and the
entry is retained, where the claim predicts eviction and success. -/
theorem rate_limit_boundary_counterexample :
    evictOld 1000 [0] = [0] ∧
    (rateLimitStep 1 1000 [0]).1 = .error rateLimitError ∧
    (rateLimitStep 1 1000 [0]).2 = [0] :=
  ⟨rfl, rfl, rfl⟩

/-- C8 (amended): `getStats` is a *shallow* copy: the spread copies every
field value, so counters are copied by value but the `eventTypes` and
`errors` array references are shared with the live stats object; pushing
onto or clearing the snapshot's arrays therefore mutates the statistics
the bus reads, while the snapshot's scalar fields are independent
copies. -/
theorem getStats_shallow_amended (h : StatsHeap) (stats : StatsObj) (v : String) :
    getStats stats = stats ∧
    (getStats stats).eventTypesRef = stats.eventTypesRef ∧
    (getStats stats).errorsRef = stats.errorsRef ∧
    busEventTypes (pushStrAt h (getStats stats).eventTypesRef v) stats =
      busEventTypes h stats ++ [v] ∧
    busEventTypes (clearStrAt h (getStats stats).eventTypesRef) stats = [] := by
  refine ⟨rfl, rfl, rfl, ?_, ?_⟩
  · simp [busEventTypes, pushStrAt, getStats]
  · simp [busEventTypes, clearStrAt, getStats]

/-- On a sorted timestamp array (timestamps are appended in arrival order),
the eviction loop keeps exactly the entries within the window, the lower
edge included: `now - t ≤ windowSize` is kept, so an entry exactly
`windowSize` old survives. -/
theorem evictOld_sorted (now : Int) (ts : List Int) (hs : ts.Sorted (· ≤ ·)) :
    evictOld now ts = ts.filter (fun t => decide (now - t ≤ windowSize)) := by
  induction ts with
  | nil => rfl
  | cons t rest ih =>
    rw [List.sorted_cons] at hs
    rw [List.filter_cons]
    by_cases hold : windowSize < now - t
    · have hp : decide (now - t ≤ windowSize) = false := by
        simp [not_le.mpr hold]
      rw [hp]
      simp only [evictOld, if_pos hold, Bool.false_eq_true, if_false]
      exact ih hs.2
    · have hin : now - t ≤ windowSize := not_lt.mp hold
      have hp : decide (now - t ≤ windowSize) = true := by simp [hin]
      rw [hp]
      have hrest : ∀ b ∈ rest, (fun u => decide (now - u ≤ windowSize)) b = true := by
        intro b hb
        simp only [decide_eq_true_eq]
        have : t ≤ b := hs.1 b hb
        omega
      simp only [evictOld, if_neg hold, if_true]
      rw [List.filter_eq_self.mpr hrest]

/-- After `k` consecutive calls at the same instant, the closure holds `k`
copies of that instant (none is evicted: their age is 0). -/
theorem rlIter_replicate (N : Nat) (now : Int) :
    ∀ k, k ≤ N → rlIter N now k = List.replicate k now := by
  intro k
  induction k with
  | zero => intro _; rfl
  | succ k ih =>
    intro hk
    have hrep := ih (Nat.le_of_succ_le hk)
    have hev : evictOld now (List.replicate k now) = List.replicate k now := by
      cases k with
      | zero => rfl
      | succ m => simp [List.replicate_succ, evictOld, windowSize]
    have hlt : ¬ N ≤ k := by omega
    simp [rlIter, hrep, rateLimitStep, hev, hlt, List.replicate_succ']

/-- C9 (amended): on each call the rate-limit middleware first evicts every
recorded timestamp *strictly* older than `windowSize` (1000 ms) - an entry
exactly `windowSize` old is retained, not evicted - then fails with the
rate-limit error if and only if the number of retained timestamps is at or
above the limit, and otherwise records the current timestamp and calls
`next`; hence exactly `N` consecutive immediate calls pass and the
`(N+1)`-th within the same window is rejected. -/
theorem rate_limit_amended (N : Nat) (now : Int) (ts : List Int)
    (hs : ts.Sorted (· ≤ ·)) :
    evictOld now ts = ts.filter (fun t => decide (now - t ≤ windowSize)) ∧
    ((rateLimitStep N now ts).1 = .error rateLimitError ↔ N ≤ (evictOld now ts).length) ∧
    ((evictOld now ts).length < N → (rateLimitStep N now ts).2 = evictOld now ts ++ [now]) ∧
    (∀ k, k < N → (rateLimitStep N now (rlIter N now k)).1 = .ok ()) ∧
    (rateLimitStep N now (rlIter N now N)).1 = .error rateLimitError := by
  refine ⟨evictOld_sorted now ts hs, ?_, ?_, ?_, ?_⟩
  · unfold rateLimitStep
    by_cases h : N ≤ (evictOld now ts).length <;> simp [h]
  · intro h
    unfold rateLimitStep
    simp [Nat.not_le.mpr h]
  · intro k hk
    have hev : evictOld now (List.replicate k now) = List.replicate k now := by
      cases k with
      | zero => rfl
      | succ m => simp [List.replicate_succ, evictOld, windowSize]
    rw [rlIter_replicate N now k (Nat.le_of_lt hk)]
    unfold rateLimitStep
    have : ¬ N ≤ k := by omega
    simp [hev, this]
  · have hev : evictOld now (List.replicate N now) = List.replicate N now := by
      cases N with
      | zero => rfl
      | succ m => simp [List.replicate_succ, evictOld, windowSize]
    rw [rlIter_replicate N now N (Nat.le_refl N)]
    unfold rateLimitStep
    simp [hev]

/-- Witness for C9 (amended) at limit 2, `now = 0`, and a recorded history
`[-1500, -1000]`: the 1500 ms old entry is evicted, the exactly 1000 ms
old entry is retained, and the third immediate call from a fresh closure
is rejected. -/
theorem rate_limit_amended_witness :
    evictOld 0 [-1500, -1000] = [-1000] ∧
    (rateLimitStep 2 0 (rlIter 2 0 2)).1 = .error rateLimitError :=
  ⟨((rate_limit_amended 2 0 [-1500, -1000] (by decide)).1).trans (by decide),
   (rate_limit_amended 2 0 [-1500, -1000] (by decide)).2.2.2.2⟩

/-! ### Map lemmas for the registry -/

/-- A key absent from the key list is not found. -/
theorem mapGet_eq_none_of_not_mem {α : Type} (m : List (String × α)) (k : String)
    (h : k ∉ m.map Prod.fst) : mapGet m k = none := by
  induction m with
  | nil => rfl
  | cons p rest ih =>
    obtain ⟨k', v'⟩ := p
    simp only [List.map_cons, List.mem_cons] at h
    push_neg at h
    have hne : k' ≠ k := fun he => h.1 he.symm
    simp [mapGet, hne, ih h.2]

/-- Looking up the key just set finds the new value. -/
theorem mapGet_mapSet_self {α : Type} (m : List (String × α)) (k : String) (v : α) :
    mapGet (mapSet m k v) k = some v := by
  induction m with
  | nil => simp [mapSet, mapGet]
  | cons p rest ih =>
    obtain ⟨k', v'⟩ := p
    by_cases h : k' = k
    · simp [mapSet, mapGet, h]
    · simp [mapSet, mapGet, h, ih]

/-- With duplicate-free keys, a deleted key is no longer found. -/
theorem mapGet_mapDelete_self {α : Type} (m : List (String × α)) (k : String)
    (hnd : (m.map Prod.fst).Nodup) : mapGet (mapDelete m k) k = none := by
  induction m with
  | nil => rfl
  | cons p rest ih =>
    obtain ⟨k', v'⟩ := p
    simp only [List.map_cons, List.nodup_cons] at hnd
    by_cases h : k' = k
    · subst h
      simp only [mapDelete, if_pos rfl]
      exact mapGet_eq_none_of_not_mem rest k' hnd.1
    · simp [mapDelete, mapGet, h, ih hnd.2]

/-- Re-setting a key to the value it already holds leaves the map
unchanged. -/
theorem mapSet_self_eq {α : Type} (m : List (String × α)) (k : String) (v : α)
    (h : mapGet m k = some v) : mapSet m k v = m := by
  induction m with
  | nil => simp [mapGet] at h
  | cons p rest ih =>
    obtain ⟨k', v'⟩ := p
    by_cases hk : k' = k
    · subst hk
      simp [mapGet] at h
      simp [mapSet, h]
    · simp only [mapGet, if_neg hk] at h
      simp [mapSet, hk, ih h]

/-- Unfolding equation of `unsubscribe` when the event type has no
entry. -/
theorem unsubscribe_none (s : BusState) (sub : Subscription)
    (h : mapGet s.handlers sub.eventType = none) : unsubscribe s sub = s := by
  unfold unsubscribe
  rw [h]

/-- Unfolding equation of `unsubscribe` when the event type has an
entry. -/
theorem unsubscribe_some (s : BusState) (sub : Subscription) (set : List HEntry)
    (h : mapGet s.handlers sub.eventType = some set) :
    unsubscribe s sub =
      { s with
          handlers :=
            if (setDelete set sub.handler).isEmpty then mapDelete s.handlers sub.eventType
            else mapSet s.handlers sub.eventType (setDelete set sub.handler)
          stats := { s.stats with activeSubscriptions := s.stats.activeSubscriptions - 1 } } := by
  unfold unsubscribe
  rw [h]

/-- C5 (amended): a second `unsubscribe` of the same subscription leaves
the handler registry unchanged, and when the first call removed the
event-type entry it is a complete no-op; but whenever an entry for the
event type still exists after the first call - in particular when other
handlers remain subscribed - the second call decrements
`activeSubscriptions` again, because the decrement is guarded only by the
existence of the entry, not by membership of the handler. -/
theorem unsubscribe_second_call_amended (s : BusState) (sub : Subscription)
    (hKeys : (s.handlers.map Prod.fst).Nodup)
    (hSets : ∀ l, mapGet s.handlers sub.eventType = some l → l.Nodup) :
    (unsubscribe (unsubscribe s sub) sub).handlers = (unsubscribe s sub).handlers ∧
    (mapGet (unsubscribe s sub).handlers sub.eventType = none →
        unsubscribe (unsubscribe s sub) sub = unsubscribe s sub) ∧
    (∀ l, mapGet (unsubscribe s sub).handlers sub.eventType = some l →
        (unsubscribe (unsubscribe s sub) sub).stats.activeSubscriptions =
          (unsubscribe s sub).stats.activeSubscriptions - 1) := by
  refine ⟨?_, ?_, ?_⟩
  · rcases hget : mapGet s.handlers sub.eventType with _ | set
    · rw [unsubscribe_none s sub hget, unsubscribe_none s sub hget]
    · have hset : set.Nodup := hSets set hget
      have e1 := unsubscribe_some s sub set hget
      by_cases hE : (setDelete set sub.handler).isEmpty = true
      · have h1 : (unsubscribe s sub).handlers = mapDelete s.handlers sub.eventType := by
          rw [e1]
          simp [hE]
        have hnone : mapGet (unsubscribe s sub).handlers sub.eventType = none := by
          rw [h1]
          exact mapGet_mapDelete_self s.handlers sub.eventType hKeys
        rw [unsubscribe_none _ _ hnone]
      · have h1 : (unsubscribe s sub).handlers =
            mapSet s.handlers sub.eventType (setDelete set sub.handler) := by
          rw [e1]
          simp [hE]
        have hsome : mapGet (unsubscribe s sub).handlers sub.eventType =
            some (setDelete set sub.handler) := by
          rw [h1]
          exact mapGet_mapSet_self s.handlers sub.eventType (setDelete set sub.handler)
        have hnm : sub.handler ∉ setDelete set sub.handler := by
          intro hmem
          exact ((hset.mem_erase_iff).1 hmem).1 rfl
        have herase : setDelete (setDelete set sub.handler) sub.handler =
            setDelete set sub.handler := List.erase_of_not_mem hnm
        rw [unsubscribe_some _ _ _ hsome]
        simp only [herase, hE, if_false, Bool.false_eq_true]
        rw [mapSet_self_eq _ _ _ hsome]
  · intro hnone
    exact unsubscribe_none _ _ hnone
  · intro l hsome
    rw [unsubscribe_some _ _ _ hsome]

/-- Witness for C5 (amended) at the two-handler bus. -/
theorem unsubscribe_second_call_amended_witness :
    (unsubscribe (unsubscribe twoHandlerBus subBase0) subBase0).handlers =
      (unsubscribe twoHandlerBus subBase0).handlers :=
  (unsubscribe_second_call_amended twoHandlerBus subBase0 (by decide)
    (fun l h => by
      have h2 : some [HEntry.base 0, HEntry.base 1] = some l := h
      injection h2 with h3
      rw [← h3]
      decide)).1

/-! ### Step equations and frame lemmas for `emit` -/

/-- `unsubscribe` changes only the handler registry and
`activeSubscriptions`. -/
theorem unsubscribe_frame (s : BusState) (sub : Subscription) :
    (unsubscribe s sub).stats.totalEventsEmitted = s.stats.totalEventsEmitted ∧
    (unsubscribe s sub).stats.eventTypes = s.stats.eventTypes ∧
    (unsubscribe s sub).stats.errors = s.stats.errors ∧
    (unsubscribe s sub).validators = s.validators ∧
    (unsubscribe s sub).middleware = s.middleware ∧
    (unsubscribe s sub).config = s.config := by
  rcases hget : mapGet s.handlers sub.eventType with _ | set
  · rw [unsubscribe_none s sub hget]
    exact ⟨rfl, rfl, rfl, rfl, rfl, rfl⟩
  · rw [unsubscribe_some s sub set hget]
    exact ⟨rfl, rfl, rfl, rfl, rfl, rfl⟩

/-- The pending self-unsubscribes change neither `totalEventsEmitted` nor
`eventTypes` nor `errors`. -/
theorem applyUnsubs_frame (us : List Subscription) (s : BusState) :
    (applyUnsubs s us).stats.totalEventsEmitted = s.stats.totalEventsEmitted ∧
    (applyUnsubs s us).stats.eventTypes = s.stats.eventTypes ∧
    (applyUnsubs s us).stats.errors = s.stats.errors := by
  induction us generalizing s with
  | nil => exact ⟨rfl, rfl, rfl⟩
  | cons u rest ih =>
    have h1 := unsubscribe_frame s u
    have h2 := ih (unsubscribe s u)
    refine ⟨?_, ?_, ?_⟩
    · show (applyUnsubs (unsubscribe s u) rest).stats.totalEventsEmitted = _
      rw [h2.1, h1.1]
    · show (applyUnsubs (unsubscribe s u) rest).stats.eventTypes = _
      rw [h2.2.1, h1.2.1]
    · show (applyUnsubs (unsubscribe s u) rest).stats.errors = _
      rw [h2.2.2, h1.2.2.1]

/-- The validation stage passes when the built-in check passes and no
custom validator is registered, whatever `enableValidation` is. -/
theorem validationStage_none (s : BusState) (event : Event)
    (hv : (validateEvent event).isValid = true)
    (hcv : mapGet s.validators event.type = none) :
    validationStage s event = none := by
  unfold validationStage
  by_cases h : s.config.enableValidation <;> simp [h, hv, hcv]

/-- With validation enabled, a failing custom validator aborts the
validation stage even when the built-in check passes. -/
theorem validationStage_custom_fail (s : BusState) (event : Event)
    (f : Event → EventValidationResult)
    (hflag : s.config.enableValidation = true)
    (hv : (validateEvent event).isValid = true)
    (hcv : mapGet s.validators event.type = some f)
    (hf : (f event).isValid = false) :
    validationStage s event = some { code := "VALIDATION_ERROR", cause := none } := by
  simp [validationStage, hflag, hv, hcv, hf]

/-- With validation disabled, the validation stage is skipped. -/
theorem validationStage_disabled (s : BusState) (event : Event)
    (hflag : s.config.enableValidation = false) :
    validationStage s event = none := by
  simp [validationStage, hflag]

/-- Step equation of `emit` on a validation failure. -/
theorem emit_step_validation (s : BusState) (env : Nat → HOutcome) (event : Event)
    (e : BusError) (hv : validationStage s event = some e) :
    emit s env event =
      { result := .error (emitError e.code), state := pushErr s (emitError e.code)
        log := [], mwRan := 0 } := by
  simp only [emit, hv]

/-- Step equation of `emit` on a middleware failure. -/
theorem emit_step_mwfail (s : BusState) (env : Nat → HOutcome) (event : Event)
    (code : String) (n : Nat) (hv : validationStage s event = none)
    (hmw : runChain s.middleware = (.error code, n)) :
    emit s env event =
      { result := .error (emitError code), state := pushErr s (emitError code)
        log := [], mwRan := n } := by
  simp only [emit, hv, hmw]

/-- Step equation of `emit` when no handler entry exists for the event
type: success with no state change at all. -/
theorem emit_step_no_entry (s : BusState) (env : Nat → HOutcome) (event : Event)
    (n : Nat) (hv : validationStage s event = none)
    (hmw : runChain s.middleware = (.ok (), n))
    (hget : mapGet s.handlers event.type = none) :
    emit s env event = { result := .ok (), state := s, log := [], mwRan := n } := by
  simp only [emit, hv, hmw, hget]

/-- Step equation of `emit` when the fan-out fully resolves. -/
theorem emit_step_resolved (s : BusState) (env : Nat → HOutcome) (event : Event)
    (n : Nat) (entries : List HEntry) (log : List Nat) (us : List Subscription)
    (errs : List BusError) (hv : validationStage s event = none)
    (hmw : runChain s.middleware = (.ok (), n))
    (hget : mapGet s.handlers event.type = some entries)
    (hf : fanOut env entries = (.allResolved, log, us, errs)) :
    emit s env event =
      { result := .ok ()
        state :=
          { applyUnsubs s us with stats :=
              { (applyUnsubs s us).stats with
                  totalEventsEmitted := (applyUnsubs s us).stats.totalEventsEmitted + 1
                  eventTypes :=
                    if event.type ∈ (applyUnsubs s us).stats.eventTypes
                    then (applyUnsubs s us).stats.eventTypes
                    else (applyUnsubs s us).stats.eventTypes ++ [event.type] } }
        log := log, mwRan := n } := by
  simp only [emit, hv, hmw, hget, hf]

/-- Step equation of `emit` when some handler promise rejects (and none
throws synchronously). -/
theorem emit_step_rejected (s : BusState) (env : Nat → HOutcome) (event : Event)
    (n : Nat) (entries : List HEntry) (log : List Nat) (us : List Subscription)
    (errs : List BusError) (hv : validationStage s event = none)
    (hmw : runChain s.middleware = (.ok (), n))
    (hget : mapGet s.handlers event.type = some entries)
    (hf : fanOut env entries = (.someRejected, log, us, errs)) :
    emit s env event =
      { result := .error (emitError "Error")
        state := pushErr (applyUnsubs (errs.foldl pushErr s) us) (emitError "Error")
        log := log, mwRan := n } := by
  simp only [emit, hv, hmw, hget, hf]

/-- Step equation of `emit` when the fan-out map aborts on a synchronous
throw. -/
theorem emit_step_aborted (s : BusState) (env : Nat → HOutcome) (event : Event)
    (n : Nat) (entries : List HEntry) (log : List Nat) (us : List Subscription)
    (errs : List BusError) (hv : validationStage s event = none)
    (hmw : runChain s.middleware = (.ok (), n))
    (hget : mapGet s.handlers event.type = some entries)
    (hf : fanOut env entries = (.syncAborted, log, us, errs)) :
    emit s env event =
      { result := .error (emitError "HANDLER_ERROR")
        state := pushErr (applyUnsubs (errs.foldl pushErr s) us) (emitError "HANDLER_ERROR")
        log := log, mwRan := n } := by
  simp only [emit, hv, hmw, hget, hf]

/-- C6 (amended): emitting a valid event with no registered handler entry
returns success, but such an emit leaves the whole bus state - in
particular `totalEventsEmitted` and `eventTypes` - completely unchanged
(the early return skips the stats update); a successful emit increments
`totalEventsEmitted` by exactly one and records `event.type` in
`eventTypes` only when a handler entry for `event.type` exists. -/
theorem emit_stats_update_amended (s : BusState) (env : Nat → HOutcome) (ev : Event) :
    (mapGet s.handlers ev.type = none → (emit s env ev).result = .ok () →
        (emit s env ev).state = s) ∧
    (∀ entries, mapGet s.handlers ev.type = some entries →
        (emit s env ev).result = .ok () →
        (emit s env ev).state.stats.totalEventsEmitted = s.stats.totalEventsEmitted + 1 ∧
        ev.type ∈ (emit s env ev).state.stats.eventTypes) := by
  constructor
  · intro hget hok
    rcases hv : validationStage s ev with _ | e
    · rcases hrc : runChain s.middleware with ⟨r, n⟩
      cases r with
      | error code =>
        rw [emit_step_mwfail s env ev code n hv hrc] at hok
        simp at hok
      | ok u =>
        cases u
        rw [emit_step_no_entry s env ev n hv hrc hget]
    · rw [emit_step_validation s env ev e hv] at hok
      simp at hok
  · intro entries hget hok
    rcases hv : validationStage s ev with _ | e
    · rcases hrc : runChain s.middleware with ⟨r, n⟩
      cases r with
      | error code =>
        rw [emit_step_mwfail s env ev code n hv hrc] at hok
        simp at hok
      | ok u =>
        cases u
        rcases hf : fanOut env entries with ⟨fr, log, us, errs⟩
        cases fr with
        | allResolved =>
          rw [emit_step_resolved s env ev n entries log us errs hv hrc hget hf]
          have hframe := applyUnsubs_frame us s
          constructor
          · show (applyUnsubs s us).stats.totalEventsEmitted + 1 = _
            rw [hframe.1]
          · show ev.type ∈
              (if ev.type ∈ (applyUnsubs s us).stats.eventTypes
               then (applyUnsubs s us).stats.eventTypes
               else (applyUnsubs s us).stats.eventTypes ++ [ev.type])
            by_cases hmem : ev.type ∈ (applyUnsubs s us).stats.eventTypes
            · simp [hmem]
            · simp [hmem]
        | someRejected =>
          rw [emit_step_rejected s env ev n entries log us errs hv hrc hget hf] at hok
          simp at hok
        | syncAborted =>
          rw [emit_step_aborted s env ev n entries log us errs hv hrc hget hf] at hok
          simp at hok
    · rw [emit_step_validation s env ev e hv] at hok
      simp at hok

/-- Witness for C6 (amended): the zero-handler case on a fresh default bus
and the one-entry case on the two-handler bus. -/
theorem emit_stats_update_amended_witness :
    (emit (mkBus {}) allOk validNumEvent).state = mkBus {} ∧
    ((emit twoHandlerBus allOk validNumEvent).state.stats.totalEventsEmitted =
        twoHandlerBus.stats.totalEventsEmitted + 1 ∧
      "t" ∈ (emit twoHandlerBus allOk validNumEvent).state.stats.eventTypes) :=
  ⟨(emit_stats_update_amended (mkBus {}) allOk validNumEvent).1 rfl rfl,
   (emit_stats_update_amended twoHandlerBus allOk validNumEvent).2
     [.base 0, .base 1] rfl rfl⟩

/-- The bus of the C7 scenario before any validator is registered:
`enableValidation: false`, one plain handler (id 0) on `"t"`. -/
def noValidationBase : BusState :=
  match subscribe (mkBus { enableValidation := some false }) "t" 0 {} with
  | .ok (_, s) => s
  | .error _ => mkBus {}

/-- C7 (amended): the custom-validator check, like the built-in structural
check, runs only under `enableValidation`.  When validation is enabled, a
failing custom validator aborts `emit` with a validation error before any
middleware or handler runs; when validation is disabled, registering any
custom validator has no effect on the emission outcome or on which
handlers run. -/
theorem custom_validator_gated_amended (s : BusState) (env : Nat → HOutcome) (ev : Event) :
    (∀ f, s.config.enableValidation = true → (validateEvent ev).isValid = true →
        mapGet s.validators ev.type = some f → (f ev).isValid = false →
        (emit s env ev).result = .error (emitError "VALIDATION_ERROR") ∧
        (emit s env ev).log = [] ∧ (emit s env ev).mwRan = 0) ∧
    (∀ f ty, s.config.enableValidation = false →
        (emit (addValidator s ty f) env ev).result = (emit s env ev).result ∧
        (emit (addValidator s ty f) env ev).log = (emit s env ev).log) := by
  constructor
  · intro f hflag hv hcv hf
    have hstage := validationStage_custom_fail s ev f hflag hv hcv hf
    rw [emit_step_validation s env ev _ hstage]
    exact ⟨rfl, rfl, rfl⟩
  · intro f ty hflag
    have hs : validationStage s ev = none := validationStage_disabled s ev hflag
    have hd : validationStage (addValidator s ty f) ev = none :=
      validationStage_disabled (addValidator s ty f) ev hflag
    rcases hrc : runChain s.middleware with ⟨r, n⟩
    have hrc' : runChain (addValidator s ty f).middleware = (r, n) := hrc
    cases r with
    | error code =>
      rw [emit_step_mwfail s env ev code n hs hrc,
          emit_step_mwfail (addValidator s ty f) env ev code n hd hrc']
      exact ⟨rfl, rfl⟩
    | ok u =>
      cases u
      rcases hget : mapGet s.handlers ev.type with _ | entries
      · have hget' : mapGet (addValidator s ty f).handlers ev.type = none := hget
        rw [emit_step_no_entry s env ev n hs hrc hget,
            emit_step_no_entry (addValidator s ty f) env ev n hd hrc' hget']
        exact ⟨rfl, rfl⟩
      · have hget' : mapGet (addValidator s ty f).handlers ev.type = some entries := hget
        rcases hf : fanOut env entries with ⟨fr, log, us, errs⟩
        cases fr with
        | allResolved =>
          rw [emit_step_resolved s env ev n entries log us errs hs hrc hget hf,
              emit_step_resolved (addValidator s ty f) env ev n entries log us errs hd hrc' hget' hf]
          exact ⟨rfl, rfl⟩
        | someRejected =>
          rw [emit_step_rejected s env ev n entries log us errs hs hrc hget hf,
              emit_step_rejected (addValidator s ty f) env ev n entries log us errs hd hrc' hget' hf]
          exact ⟨rfl, rfl⟩
        | syncAborted =>
          rw [emit_step_aborted s env ev n entries log us errs hs hrc hget hf,
              emit_step_aborted (addValidator s ty f) env ev n entries log us errs hd hrc' hget' hf]
          exact ⟨rfl, rfl⟩

/-- Witness for C7 (amended): a default (validation-enabled) bus with the
failing custom validator aborts the emit; the validation-disabled bus is
unaffected by registering the same validator. -/
theorem custom_validator_gated_amended_witness :
    ((emit (addValidator (mkBus {}) "t" failingValidator) allOk validNumEvent).result =
        .error (emitError "VALIDATION_ERROR")) ∧
    ((emit (addValidator noValidationBase "t" failingValidator) allOk validNumEvent).log =
        (emit noValidationBase allOk validNumEvent).log) :=
  ⟨((custom_validator_gated_amended (addValidator (mkBus {}) "t" failingValidator)
        allOk validNumEvent).1 failingValidator rfl rfl rfl rfl).1,
   ((custom_validator_gated_amended noValidationBase allOk validNumEvent).2
        failingValidator "t" rfl).2⟩

/-! ### Fan-out lemmas -/

/-- Over raw handlers none of which throws synchronously, the fan-out map
calls every handler in order, produces no handler-level error record, and
resolves exactly when all handlers complete normally. -/
theorem fanOut_base_no_throw (env : Nat → HOutcome) (ids : List Nat)
    (h : ∀ i ∈ ids, env i ≠ .throwSync) :
    fanOut env (ids.map .base) =
      (if ∀ i ∈ ids, env i = .ok then .allResolved else .someRejected, ids, [], []) := by
  induction ids with
  | nil => simp [fanOut]
  | cons i rest ih =>
    have hi : env i ≠ .throwSync := h i (List.mem_cons_self i rest)
    have hrest : ∀ j ∈ rest, env j ≠ .throwSync := fun j hj => h j (List.mem_cons_of_mem i hj)
    have ihr := ih hrest
    simp only [List.map_cons]
    cases henv : env i with
    | ok =>
      have hiff : (∀ j ∈ i :: rest, env j = .ok) ↔ (∀ j ∈ rest, env j = .ok) := by
        simp [List.forall_mem_cons, henv]
      by_cases hall : ∀ j ∈ rest, env j = .ok
      · rw [if_pos (hiff.mpr hall)]
        simp only [fanOut, invokeEntry, henv, ihr, if_pos hall]
        simp
      · rw [if_neg (fun hc => hall (hiff.mp hc))]
        simp only [fanOut, invokeEntry, henv, ihr, if_neg hall]
        simp
    | throwSync => exact absurd henv hi
    | rejectAsync =>
      have hnall : ¬ ∀ j ∈ i :: rest, env j = .ok := by
        intro hc
        have := hc i (List.mem_cons_self i rest)
        rw [henv] at this
        cases this
      rw [if_neg hnall]
      by_cases hall : ∀ j ∈ rest, env j = .ok
      · simp only [fanOut, invokeEntry, henv, ihr, if_pos hall]
        simp
      · simp only [fanOut, invokeEntry, henv, ihr, if_neg hall]
        simp

/-- A synchronously throwing handler aborts the fan-out map: the handlers
before it (none throwing) and the thrower itself are called, the rest are
not, and exactly one `HANDLER_ERROR` is recorded. -/
theorem fanOut_base_sync (env : Nat → HOutcome) (xs : List Nat) (k : Nat) (ys : List Nat)
    (hx : ∀ i ∈ xs, env i ≠ .throwSync) (hk : env k = .throwSync) :
    fanOut env ((xs ++ k :: ys).map .base) = (.syncAborted, xs ++ [k], [], [handlerError]) := by
  induction xs with
  | nil => simp [fanOut, invokeEntry, hk]
  | cons i rest ih =>
    have hi : env i ≠ .throwSync := hx i (List.mem_cons_self i rest)
    have hrest : ∀ j ∈ rest, env j ≠ .throwSync := fun j hj => hx j (List.mem_cons_of_mem i hj)
    have ihr := ih hrest
    simp only [List.cons_append, List.map_cons]
    cases henv : env i with
    | ok =>
      simp only [fanOut, invokeEntry, henv, ihr]
      simp
    | throwSync => exact absurd henv hi
    | rejectAsync =>
      simp only [fanOut, invokeEntry, henv, ihr]
      simp

/-- C4 (amended): handler-failure handling is asymmetric.  Handlers that
return rejecting promises are all started (no short-circuit) and `emit`
then fails with a single `EmitError`, but no per-handler `HandlerError` is
appended for them - only the wrapping `EmitError` reaches `stats.errors`.
A handler that throws *synchronously* is captured as a `HandlerError`
appended to `stats.errors` (followed by the wrapping `EmitError`), but it
short-circuits the fan-out map: handlers after it in registration order
are never invoked. -/
theorem handler_failure_amended (s : BusState) (env : Nat → HOutcome) (ev : Event)
    (hv : (validateEvent ev).isValid = true)
    (hcv : mapGet s.validators ev.type = none)
    (hmw : s.middleware = []) :
    (∀ ids : List Nat, mapGet s.handlers ev.type = some (ids.map .base) →
        (∀ i ∈ ids, env i ≠ .throwSync) → (∃ i ∈ ids, env i = .rejectAsync) →
        (emit s env ev).log = ids ∧
        (emit s env ev).result = .error (emitError "Error") ∧
        (emit s env ev).state.stats.errors = s.stats.errors ++ [emitError "Error"] ∧
        (emit s env ev).state.stats.totalEventsEmitted = s.stats.totalEventsEmitted) ∧
    (∀ (xs : List Nat) (k : Nat) (ys : List Nat),
        mapGet s.handlers ev.type = some ((xs ++ k :: ys).map .base) →
        (∀ i ∈ xs, env i ≠ .throwSync) → env k = .throwSync →
        (emit s env ev).log = xs ++ [k] ∧
        (emit s env ev).result = .error (emitError "HANDLER_ERROR") ∧
        (emit s env ev).state.stats.errors =
          s.stats.errors ++ [handlerError, emitError "HANDLER_ERROR"]) := by
  have hstage : validationStage s ev = none := validationStage_none s ev hv hcv
  have hrc : runChain s.middleware = (.ok (), 0) := by rw [hmw]; rfl
  constructor
  · intro ids hget hnothrow hrej
    have hnall : ¬ ∀ i ∈ ids, env i = .ok := by
      intro hc
      obtain ⟨i, hmem, hi⟩ := hrej
      have := hc i hmem
      rw [hi] at this
      cases this
    have hf : fanOut env (ids.map .base) = (.someRejected, ids, [], []) := by
      rw [fanOut_base_no_throw env ids hnothrow, if_neg hnall]
    rw [emit_step_rejected s env ev 0 (ids.map .base) ids [] [] hstage hrc hget hf]
    refine ⟨rfl, rfl, ?_, rfl⟩
    simp [pushErr, applyUnsubs]
  · intro xs k ys hget hnothrow hk
    have hf : fanOut env ((xs ++ k :: ys).map .base) =
        (.syncAborted, xs ++ [k], [], [handlerError]) :=
      fanOut_base_sync env xs k ys hnothrow hk
    rw [emit_step_aborted s env ev 0 ((xs ++ k :: ys).map .base) (xs ++ [k]) []
        [handlerError] hstage hrc hget hf]
    refine ⟨rfl, rfl, ?_⟩
    simp [pushErr, applyUnsubs]

/-- Witness for C4 (amended): on the two-handler bus, both handlers are
started when handler 0 only rejects, but handler 1 is never started when
handler 0 throws synchronously. -/
theorem handler_failure_amended_witness :
    ((emit twoHandlerBus allReject validNumEvent).log = [0, 1] ∧
      (emit twoHandlerBus allReject validNumEvent).state.stats.errors =
        [emitError "Error"]) ∧
    ((emit twoHandlerBus syncThrowEnv validNumEvent).log = [0] ∧
      (emit twoHandlerBus syncThrowEnv validNumEvent).state.stats.errors =
        [handlerError, emitError "HANDLER_ERROR"]) := by
  have h1 := (handler_failure_amended twoHandlerBus allReject validNumEvent rfl rfl rfl).1
    [0, 1] rfl (by intro i hi; fin_cases hi <;> decide) ⟨0, by decide, rfl⟩
  have h2 := (handler_failure_amended twoHandlerBus syncThrowEnv validNumEvent rfl rfl rfl).2
    [] 0 [1] rfl (by intro i hi; cases hi) rfl
  exact ⟨⟨h1.1, h1.2.2.1⟩, ⟨h2.1, h2.2.2⟩⟩

/-- The bus state after a successful emit to the `once` subscription of
`onceBus`: the wrapper unsubscribed itself, the stats were updated. -/
def onceBusAfterSuccess : BusState :=
  { handlers := [], validators := [], middleware := []
    stats := { totalEventsEmitted := 1, activeSubscriptions := 0, middlewareCount := 0
               eventTypes := ["t"], errors := [] }
    config := { enableLogging := true, enableValidation := true, maxListeners := 10 }
    nextNonce := 1 }

/-- The bus state after a failed (rejecting) emit to the `once`
subscription of `onceBus`: the wrapper is still registered. -/
def onceBusAfterFailure : BusState :=
  { handlers := [("t", [.onceW (.base 0) "t" 0])], validators := [], middleware := []
    stats := { totalEventsEmitted := 0, activeSubscriptions := 1, middlewareCount := 0
               eventTypes := ["t"], errors := [emitError "Error"] }
    config := { enableLogging := true, enableValidation := true, maxListeners := 10 }
    nextNonce := 1 }

/-- C2 (amended): a `once` wrapper removes itself immediately after its
handler's invocation completes **successfully** - the registry entry is
gone, `activeSubscriptions` drops, and a second emit does not re-invoke
the handler.  But when the invocation fails, the wrapper never reaches its
self-unsubscribe: it stays registered and a second emit of the same type
re-invokes the handler, so a failing `once` handler is not invoked at most
once over its lifetime. -/
theorem once_removal_amended (env : Nat → HOutcome) (ev : Event)
    (hty : ev.type = "t") (hv : (validateEvent ev).isValid = true) :
    (env 0 = .ok →
        (emit onceBus env ev).log = [0] ∧
        (emit onceBus env ev).state = onceBusAfterSuccess ∧
        (emit (emit onceBus env ev).state env ev).log = []) ∧
    (env 0 = .rejectAsync →
        (emit onceBus env ev).log = [0] ∧
        (emit onceBus env ev).state = onceBusAfterFailure ∧
        (emit (emit onceBus env ev).state env ev).log = [0]) := by
  obtain ⟨ty, ts, src⟩ := ev
  have hty' : ty = "t" := hty
  subst hty'
  have hstage : validationStage onceBus ⟨"t", ts, src⟩ = none :=
    validationStage_none onceBus ⟨"t", ts, src⟩ hv rfl
  have hrc : runChain onceBus.middleware = (.ok (), 0) := rfl
  have hget : mapGet onceBus.handlers (Event.mk "t" ts src).type =
      some [.onceW (.base 0) "t" 0] := rfl
  constructor
  · intro henv
    have hfan : fanOut env [.onceW (.base 0) "t" 0] =
        (.allResolved, [0], [{ eventType := "t", handler := .onceW (.base 0) "t" 0 }], []) := by
      simp [fanOut, invokeEntry, henv]
    have hemit := emit_step_resolved onceBus env ⟨"t", ts, src⟩ 0 [.onceW (.base 0) "t" 0] [0]
        [{ eventType := "t", handler := .onceW (.base 0) "t" 0 }] [] hstage hrc hget hfan
    have hstate : (emit onceBus env ⟨"t", ts, src⟩).state = onceBusAfterSuccess := by
      rw [hemit]
      rfl
    refine ⟨by rw [hemit], hstate, ?_⟩
    rw [hstate]
    rw [emit_step_no_entry onceBusAfterSuccess env ⟨"t", ts, src⟩ 0
        (validationStage_none onceBusAfterSuccess ⟨"t", ts, src⟩ hv rfl) rfl rfl]
  · intro henv
    have hfan : fanOut env [.onceW (.base 0) "t" 0] = (.someRejected, [0], [], []) := by
      simp [fanOut, invokeEntry, henv]
    have hemit := emit_step_rejected onceBus env ⟨"t", ts, src⟩ 0 [.onceW (.base 0) "t" 0] [0]
        [] [] hstage hrc hget hfan
    have hstate : (emit onceBus env ⟨"t", ts, src⟩).state = onceBusAfterFailure := by
      rw [hemit]
      rfl
    refine ⟨by rw [hemit], hstate, ?_⟩
    rw [hstate]
    have hfan2 := hfan
    have hget2 : mapGet onceBusAfterFailure.handlers (Event.mk "t" ts src).type =
        some [.onceW (.base 0) "t" 0] := rfl
    rw [emit_step_rejected onceBusAfterFailure env ⟨"t", ts, src⟩ 0 [.onceW (.base 0) "t" 0]
        [0] [] [] (validationStage_none onceBusAfterFailure ⟨"t", ts, src⟩ hv rfl) rfl hget2 hfan2]

/-- Witness for C2 (amended): the successful branch at a concrete valid
event. -/
theorem once_removal_amended_witness :
    (emit onceBus allOk validNumEvent).log = [0] ∧
    (emit onceBus allOk validNumEvent).state = onceBusAfterSuccess ∧
    (emit (emit onceBus allOk validNumEvent).state allOk validNumEvent).log = [] :=
  (once_removal_amended allOk validNumEvent rfl rfl).1 rfl
